import Mathlib

/-!
Verification of the tark geospatial-to-mesh pipeline.

The frontend validation logic is embedded from src/frontend/lib/api.ts.
The backend core (CoordinateTransformer, TerrainMeshBuilder, ElevationSampler,
BuildingExtruder, MeshMerger) is not present under src/ — only its design
documents are (src/backend/docs/). Those components are therefore modelled
from the specification and the in-repo documents, over exact rational
arithmetic in place of IEEE floats.
-/

/-- Geographic bounding box, degrees (src/frontend/lib/api.ts, BoundingBox). -/
structure BoundingBox where
  north : ℚ
  south : ℚ
  east : ℚ
  west : ℚ
deriving DecidableEq

/-- JavaScript Math.round: half-values round toward positive infinity. -/
def jsRound (q : ℚ) : ℤ := ⌊q + 1/2⌋

/-- Result record of calculateAreaSize (src/frontend/lib/api.ts lines 170-191).
width and height are rounded meters, area is km². -/
structure AreaSize where
  width : ℤ
  height : ℤ
  area : ℚ
deriving DecidableEq

/-- calculateAreaSize from src/frontend/lib/api.ts. `cosAbs` stands for the
irrational factor Math.abs(Math.cos(centerLat * π / 180)), abstracted as a
rational parameter. latMeters = (north - south) * 111000,
lngMeters = (east - west) * 111000 * cosAbs. -/
def calculateAreaSize (cosAbs : ℚ) (b : BoundingBox) : AreaSize :=
  { width := jsRound ((b.east - b.west) * 111000 * cosAbs),
    height := jsRound ((b.north - b.south) * 111000),
    area := (jsRound ((b.north - b.south) * 111000 * ((b.east - b.west) * 111000 * cosAbs)) : ℚ)
      / 1000000 }

/-- The two error kinds produced by validateBboxSize ("Area too small" /
"Area too large" messages in src/frontend/lib/api.ts lines 196-223). -/
inductive BboxSizeIssue
  | tooSmall
  | tooLarge
deriving DecidableEq

/-- Return record of validateBboxSize: valid flag plus optional issue. -/
structure ValidationResult where
  valid : Bool
  issue : Option BboxSizeIssue
deriving DecidableEq

/-- validateBboxSize from src/frontend/lib/api.ts lines 196-223: the minimum
check (either side under 1000 m) runs first, then the maximum check (either
side over 5000 m). -/
def validateBboxSize (cosAbs : ℚ) (b : BoundingBox) : ValidationResult :=
  if (calculateAreaSize cosAbs b).width < 1000 ∨ (calculateAreaSize cosAbs b).height < 1000 then
    { valid := false, issue := some BboxSizeIssue.tooSmall }
  else if 5000 < (calculateAreaSize cosAbs b).width ∨ 5000 < (calculateAreaSize cosAbs b).height then
    { valid := false, issue := some BboxSizeIssue.tooLarge }
  else
    { valid := true, issue := none }

/-- C8: bounding-box validation accepts a bbox exactly when both the computed
width and the computed height lie in [1000 m, 5000 m], and a degenerate bbox
(north = south or east = west) is always rejected. -/
theorem validateBboxSize_accepts_iff (cosAbs : ℚ) (b : BoundingBox) :
    ((validateBboxSize cosAbs b).valid = true ↔
      1000 ≤ (calculateAreaSize cosAbs b).width ∧ (calculateAreaSize cosAbs b).width ≤ 5000 ∧
      1000 ≤ (calculateAreaSize cosAbs b).height ∧ (calculateAreaSize cosAbs b).height ≤ 5000) ∧
    ((b.north = b.south ∨ b.east = b.west) → (validateBboxSize cosAbs b).valid = false) := by
  constructor
  · unfold validateBboxSize
    split_ifs with h1 h2
    · simp only [Bool.false_eq_true, false_iff]
      omega
    · simp only [Bool.false_eq_true, false_iff]
      omega
    · simp only [true_iff]
      omega
  · intro hdeg
    have hzero : (calculateAreaSize cosAbs b).width < 1000 ∨
        (calculateAreaSize cosAbs b).height < 1000 := by
      rcases hdeg with h | h
      · right
        have : (b.north - b.south) * 111000 = 0 := by rw [h]; ring
        simp only [calculateAreaSize, this, jsRound]
        norm_num
      · left
        have : (b.east - b.west) * 111000 * cosAbs = 0 := by rw [h]; ring
        simp only [calculateAreaSize, this, jsRound]
        norm_num
    unfold validateBboxSize
    rw [if_pos hzero]

/-- C8 witness: a degenerate bbox (north = south) is rejected. -/
theorem validateBboxSize_accepts_iff_witness :
    (validateBboxSize 1 { north := 2, south := 2, east := 3, west := 0 }).valid = false :=
  (validateBboxSize_accepts_iff 1 { north := 2, south := 2, east := 3, west := 0 }).2
    (Or.inl rfl)

/-- C10: the minimum-size check runs before the maximum-size check: any bbox
with a computed side below 1000 m yields the "Area too small" issue even when
the other side exceeds 5000 m; "Area too large" is reported exactly when both
sides are at least 1000 m and at least one exceeds 5000 m. -/
theorem validateBboxSize_min_checked_first (cosAbs : ℚ) (b : BoundingBox) :
    (((calculateAreaSize cosAbs b).width < 1000 ∨ (calculateAreaSize cosAbs b).height < 1000) →
      validateBboxSize cosAbs b = { valid := false, issue := some BboxSizeIssue.tooSmall }) ∧
    ((validateBboxSize cosAbs b).issue = some BboxSizeIssue.tooLarge ↔
      1000 ≤ (calculateAreaSize cosAbs b).width ∧ 1000 ≤ (calculateAreaSize cosAbs b).height ∧
      (5000 < (calculateAreaSize cosAbs b).width ∨ 5000 < (calculateAreaSize cosAbs b).height)) := by
  constructor
  · intro hsmall
    unfold validateBboxSize
    rw [if_pos hsmall]
  · unfold validateBboxSize
    split_ifs with h1 h2
    · simp only [Option.some.injEq, reduceCtorEq, false_iff]
      omega
    · simp only [Option.some.injEq, true_iff]
      omega
    · simp only [reduceCtorEq, false_iff]
      omega

/-- C10 witness: a bbox 555 m tall but 11100 m wide is reported "too small",
not "too large". -/
theorem validateBboxSize_min_checked_first_witness :
    validateBboxSize 1 { north := 1/200, south := 0, east := 1/10, west := 0 }
      = { valid := false, issue := some BboxSizeIssue.tooSmall } :=
  (validateBboxSize_min_checked_first 1
    { north := 1/200, south := 0, east := 1/10, west := 0 }).1 (by
      right
      simp only [calculateAreaSize, jsRound]
      norm_num)

/-- Modelled from the spec: the CoordinateTransformer of app/utils/coords.py
(absent from src/). Holds the bbox center and the cosine factor of the
projection, abstracted as a rational (cos(centerLat * π / 180) in the code). -/
structure Transformer where
  centerLat : ℚ
  centerLon : ℚ
  cosCenter : ℚ
deriving DecidableEq

/-- Modelled from the spec: toLocal of the CoordinateTransformer. Projects a
geodetic point to local meters relative to the bbox center with the
equirectangular-at-center approximation (111000 m per degree of latitude),
then negates both horizontal axes — the single fixed axis convention of
spec 4.1 / docs/logic/coordinates.md. Returns (x, z). -/
def toLocal (t : Transformer) (lat lon : ℚ) : ℚ × ℚ :=
  (-((lon - t.centerLon) * 111000 * t.cosCenter), -((lat - t.centerLat) * 111000))

/-- Elevation raster: rows × cols grid of elevations in meters. -/
structure ElevationGrid where
  rows : ℕ
  cols : ℕ
  elev : ℕ → ℕ → ℚ

/-- Clamp an integer index into [0, n-1] (raster boundary handling of the
separable blur). -/
def clampIdx (n : ℕ) (i : ℤ) : ℕ :=
  if i < 0 then 0 else if (n : ℤ) ≤ i then n - 1 else i.toNat

/-- Modelled from the spec: horizontal pass of the separable Gaussian blur of
terrain.py (absent from src/). `w` gives the kernel weight at each offset and
`radius` its support. -/
def smoothRowsPass (w : ℤ → ℚ) (radius : ℕ) (g : ElevationGrid) : ElevationGrid :=
  { rows := g.rows, cols := g.cols,
    elev := fun r c =>
      ((List.range (2 * radius + 1)).map fun j =>
        w ((j : ℤ) - radius) * g.elev r (clampIdx g.cols ((c : ℤ) + (j : ℤ) - radius))).sum }

/-- Modelled from the spec: vertical pass of the separable Gaussian blur. -/
def smoothColsPass (w : ℤ → ℚ) (radius : ℕ) (g : ElevationGrid) : ElevationGrid :=
  { rows := g.rows, cols := g.cols,
    elev := fun r c =>
      ((List.range (2 * radius + 1)).map fun j =>
        w ((j : ℤ) - radius) * g.elev (clampIdx g.rows ((r : ℤ) + (j : ℤ) - radius)) c).sum }

/-- Modelled from the spec: gaussian_filter applied to the elevation raster
(terrain.py, sigma configurable; sigma = 0, encoded here as radius = 0,
disables smoothing). -/
def gaussianSmooth (w : ℤ → ℚ) (radius : ℕ) (g : ElevationGrid) : ElevationGrid :=
  if radius = 0 then g else smoothColsPass w radius (smoothRowsPass w radius g)

/-- Modelled from the spec: np.flipud of terrain.py — the single row-orientation
flip that turns the provider grid (row 0 = north) into the orientation consumed
by vertex construction (row 0 = south). -/
def flipud (g : ElevationGrid) : ElevationGrid :=
  { rows := g.rows, cols := g.cols, elev := fun r c => g.elev (g.rows - 1 - r) c }

/-- A mesh vertex in local metric coordinates, y up. -/
structure Vec3 where
  x : ℚ
  y : ℚ
  z : ℚ
deriving DecidableEq

/-- Grid metadata retained with the terrain mesh: dimensions, the affine vertex
lattice (vertex (r,c) sits at (x0 + c*dx, z0 + r*dz)), and the row-major
elevation array in the orientation actually used to build vertices. Sole input
of the elevation sampler. -/
structure GridMeta where
  rows : ℕ
  cols : ℕ
  x0 : ℚ
  z0 : ℚ
  dx : ℚ
  dz : ℚ
  elev : ℕ → ℕ → ℚ

/-- Local (x,z) position of grid vertex (r,c). -/
def vpos (m : GridMeta) (r c : ℕ) : ℚ × ℚ :=
  (m.x0 + (c : ℚ) * m.dx, m.z0 + (r : ℚ) * m.dz)

/-- Latitude of grid row r: np.linspace(south, north, rows), row 0 = south. -/
def latAt (b : BoundingBox) (rows r : ℕ) : ℚ :=
  b.south + (r : ℚ) * ((b.north - b.south) / ((rows : ℚ) - 1))

/-- Longitude of grid column c: np.linspace(west, east, cols). -/
def lonAt (b : BoundingBox) (cols c : ℕ) : ℚ :=
  b.west + (c : ℚ) * ((b.east - b.west) / ((cols : ℚ) - 1))

/-- Modelled from the spec: vertex construction of terrain.py (absent from
src/) — row-major flattening of the grid, vertex i = (x, smoothed elevation,
z) with (x,z) the transformed lat/lon of grid point (i / cols, i % cols) and
the elevation taken from the flipped smoothed raster. -/
def rawTerrainVertices (t : Transformer) (b : BoundingBox) (w : ℤ → ℚ) (radius : ℕ)
    (g : ElevationGrid) : List Vec3 :=
  (List.range (g.rows * g.cols)).map fun i =>
    { x := (toLocal t (latAt b g.rows (i / g.cols)) (lonAt b g.cols (i % g.cols))).1,
      y := (flipud (gaussianSmooth w radius g)).elev (i / g.cols) (i % g.cols),
      z := (toLocal t (latAt b g.rows (i / g.cols)) (lonAt b g.cols (i % g.cols))).2 }

/-- Arithmetic mean of a list of rationals (0 for the empty list). -/
def meanQ (l : List ℚ) : ℚ := l.sum / l.length

/-- Modelled from the spec: the single centering step — translate all vertices
so that mean(x) = 0 and mean(z) = 0; y untouched. -/
def centerXZ (vs : List Vec3) : List Vec3 :=
  vs.map fun v =>
    { x := v.x - meanQ (vs.map Vec3.x), y := v.y, z := v.z - meanQ (vs.map Vec3.z) }

/-- Modelled from the spec: grid triangulation of terrain.py — for every cell
(r,c) the two triangles [v0,v1,v2] and [v1,v3,v2] with v0=(r,c), v1=(r,c+1),
v2=(r+1,c), v3=(r+1,c+1), cells enumerated row-major. -/
def terrainFaces (rows cols : ℕ) : List (ℕ × ℕ × ℕ) :=
  (List.range ((rows - 1) * (cols - 1))).flatMap fun q =>
    [(q / (cols - 1) * cols + q % (cols - 1),
      q / (cols - 1) * cols + (q % (cols - 1) + 1),
      (q / (cols - 1) + 1) * cols + q % (cols - 1)),
     (q / (cols - 1) * cols + (q % (cols - 1) + 1),
      (q / (cols - 1) + 1) * cols + (q % (cols - 1) + 1),
      (q / (cols - 1) + 1) * cols + q % (cols - 1))]

/-- Modelled from the spec: the grid metadata stored with the built terrain —
the affine lattice of the centered vertices and the flipped smoothed
elevations. -/
def terrainMeta (t : Transformer) (b : BoundingBox) (w : ℤ → ℚ) (radius : ℕ)
    (g : ElevationGrid) : GridMeta :=
  { rows := g.rows, cols := g.cols,
    x0 := (toLocal t (latAt b g.rows 0) (lonAt b g.cols 0)).1
      - meanQ ((rawTerrainVertices t b w radius g).map Vec3.x),
    z0 := (toLocal t (latAt b g.rows 0) (lonAt b g.cols 0)).2
      - meanQ ((rawTerrainVertices t b w radius g).map Vec3.z),
    dx := -((b.east - b.west) / ((g.cols : ℚ) - 1) * 111000 * t.cosCenter),
    dz := -((b.north - b.south) / ((g.rows : ℚ) - 1) * 111000),
    elev := (flipud (gaussianSmooth w radius g)).elev }

/-- Triangulated terrain surface plus the retained grid metadata. -/
structure TerrainMesh where
  vertices : List Vec3
  faces : List (ℕ × ℕ × ℕ)
  meta : GridMeta

/-- Modelled from the spec: the TerrainMeshBuilder — smooth, flip, build the
vertex lattice, triangulate, and re-center in x/z. -/
def buildTerrain (t : Transformer) (b : BoundingBox) (w : ℤ → ℚ) (radius : ℕ)
    (g : ElevationGrid) : TerrainMesh :=
  { vertices := centerXZ (rawTerrainVertices t b w radius g),
    faces := terrainFaces g.rows g.cols,
    meta := terrainMeta t b w radius g }

/-- Demo 3×3 elevation grid of spec section 8: [[0,0,0],[0,10,0],[0,0,0]]. -/
def demoGrid : ElevationGrid :=
  { rows := 3, cols := 3, elev := fun r c => if r = 1 ∧ c = 1 then 10 else 0 }

/-- Demo 2×2 m bbox centered on the origin (spec section 8 example). -/
def demoBbox : BoundingBox :=
  { north := 1/111000, south := -(1/111000), east := 1/111000, west := -(1/111000) }

/-- Demo transformer centered on the demo bbox, cosine factor 1 at the
equator. -/
def demoTransformer : Transformer := { centerLat := 0, centerLon := 0, cosCenter := 1 }

/-- Trivial smoothing kernel used with radius 0 (sigma = 0 disables
smoothing). -/
def demoKernel : ℤ → ℚ := fun _ => 1

lemma sum_map_sub (l : List ℚ) (m : ℚ) :
    (l.map fun a => a - m).sum = l.sum - l.length * m := by
  induction l with
  | nil => simp
  | cons a t ih => simp [ih]; ring

lemma meanQ_center (l : List ℚ) (h : l ≠ []) :
    meanQ (l.map fun a => a - meanQ l) = 0 := by
  have hn : (l.length : ℚ) ≠ 0 := by
    have : l.length ≠ 0 := by simpa [List.length_eq_zero] using h
    exact_mod_cast this
  unfold meanQ
  rw [sum_map_sub, List.length_map]
  have hcancel : (l.length : ℚ) * (l.sum / l.length) = l.sum := by
    field_simp
  rw [hcancel, sub_self, zero_div]

lemma centerXZ_map_x (vs : List Vec3) :
    (centerXZ vs).map Vec3.x = (vs.map Vec3.x).map fun a => a - meanQ (vs.map Vec3.x) := by
  simp only [centerXZ, List.map_map]
  rfl

lemma centerXZ_map_z (vs : List Vec3) :
    (centerXZ vs).map Vec3.z = (vs.map Vec3.z).map fun a => a - meanQ (vs.map Vec3.z) := by
  simp only [centerXZ, List.map_map]
  rfl

lemma index_div {r c cols : ℕ} (hc : c < cols) : (r * cols + c) / cols = r := by
  rw [mul_comm, Nat.mul_add_div (by omega)]
  simp [Nat.div_eq_of_lt hc]

lemma index_mod {r c cols : ℕ} (hc : c < cols) : (r * cols + c) % cols = c := by
  rw [mul_comm, Nat.mul_add_mod]
  exact Nat.mod_eq_of_lt hc

lemma index_lt {r c rows cols : ℕ} (hr : r < rows) (hc : c < cols) :
    r * cols + c < rows * cols :=
  calc r * cols + c < r * cols + cols := by omega
    _ = (r + 1) * cols := by ring
    _ ≤ rows * cols := Nat.mul_le_mul_right cols hr

/-- C3: the built terrain mesh is centered — the vertex x values and z values
each have mean exactly 0 — and every vertex keeps as its y value the smoothed
input elevation of its own grid point (in the row orientation actually used to
build vertices): re-centering never shifts y. -/
theorem terrainMesh_centered_y_preserved (t : Transformer) (b : BoundingBox)
    (w : ℤ → ℚ) (radius : ℕ) (g : ElevationGrid) (h : 0 < g.rows * g.cols) :
    meanQ ((buildTerrain t b w radius g).vertices.map Vec3.x) = 0 ∧
    meanQ ((buildTerrain t b w radius g).vertices.map Vec3.z) = 0 ∧
    ∀ r, r < g.rows → ∀ c, c < g.cols →
      (((buildTerrain t b w radius g).vertices[r * g.cols + c]?).map Vec3.y)
        = some ((flipud (gaussianSmooth w radius g)).elev r c) := by
  have hlen : (rawTerrainVertices t b w radius g).length = g.rows * g.cols := by
    simp [rawTerrainVertices]
  have hne : rawTerrainVertices t b w radius g ≠ [] := by
    apply List.ne_nil_of_length_pos
    rw [hlen]; exact h
  refine ⟨?_, ?_, ?_⟩
  · rw [show (buildTerrain t b w radius g).vertices
      = centerXZ (rawTerrainVertices t b w radius g) from rfl]
    rw [centerXZ_map_x]
    exact meanQ_center _ (by simp [List.map_eq_nil_iff, hne])
  · rw [show (buildTerrain t b w radius g).vertices
      = centerXZ (rawTerrainVertices t b w radius g) from rfl]
    rw [centerXZ_map_z]
    exact meanQ_center _ (by simp [List.map_eq_nil_iff, hne])
  · intro r hr c hc
    have hlt : r * g.cols + c < g.rows * g.cols := index_lt hr hc
    rw [show (buildTerrain t b w radius g).vertices
      = centerXZ (rawTerrainVertices t b w radius g) from rfl]
    unfold centerXZ rawTerrainVertices
    rw [List.getElem?_map, List.getElem?_map]
    simp only [List.getElem?_range, hlt, if_pos, Option.map_some']
    rw [index_div hc, index_mod hc]

/-- C3 witness: for the 3×3 demo grid the centered mesh has zero mean in x and
z and the center vertex keeps its smoothed elevation. -/
theorem terrainMesh_centered_y_preserved_witness :
    meanQ ((buildTerrain demoTransformer demoBbox demoKernel 0 demoGrid).vertices.map Vec3.x)
      = 0 ∧
    meanQ ((buildTerrain demoTransformer demoBbox demoKernel 0 demoGrid).vertices.map Vec3.z)
      = 0 ∧
    (((buildTerrain demoTransformer demoBbox demoKernel 0
        demoGrid).vertices[1 * demoGrid.cols + 1]?).map Vec3.y)
      = some ((flipud (gaussianSmooth demoKernel 0 demoGrid)).elev 1 1) := by
  have h := terrainMesh_centered_y_preserved demoTransformer demoBbox demoKernel 0 demoGrid
    (by decide)
  exact ⟨h.1, h.2.1, h.2.2 1 (by decide) 1 (by decide)⟩

lemma length_flatMap_pair {α β : Type} (l : List α) (f g : α → β) :
    (l.flatMap fun a => [f a, g a]).length = 2 * l.length := by
  induction l with
  | nil => rfl
  | cons a t ih => simp only [List.flatMap_cons, List.length_append, ih]; simp; omega

lemma terrainFaces_length (rows cols : ℕ) :
    (terrainFaces rows cols).length = 2 * ((rows - 1) * (cols - 1)) := by
  unfold terrainFaces
  rw [length_flatMap_pair, List.length_range]

/-- C4: a terrain mesh built from an R×C grid has exactly R*C vertices and
exactly 2*(R-1)*(C-1) triangular faces. -/
theorem terrainMesh_counts (t : Transformer) (b : BoundingBox) (w : ℤ → ℚ)
    (radius : ℕ) (g : ElevationGrid) (_hR : 2 ≤ g.rows) (_hC : 2 ≤ g.cols) :
    (buildTerrain t b w radius g).vertices.length = g.rows * g.cols ∧
    (buildTerrain t b w radius g).faces.length = 2 * ((g.rows - 1) * (g.cols - 1)) := by
  constructor
  · rw [show (buildTerrain t b w radius g).vertices
      = centerXZ (rawTerrainVertices t b w radius g) from rfl]
    simp [centerXZ, rawTerrainVertices]
  · rw [show (buildTerrain t b w radius g).faces = terrainFaces g.rows g.cols from rfl]
    exact terrainFaces_length g.rows g.cols

/-- C4 witness: the 3×3 demo grid over the 2×2 m demo bbox yields 9 vertices
and 8 triangles. -/
theorem terrainMesh_counts_witness :
    (buildTerrain demoTransformer demoBbox demoKernel 0 demoGrid).vertices.length = 9 ∧
    (buildTerrain demoTransformer demoBbox demoKernel 0 demoGrid).faces.length = 8 := by
  have h := terrainMesh_counts demoTransformer demoBbox demoKernel 0 demoGrid
    (by decide) (by decide)
  exact ⟨h.1.trans (by decide), h.2.trans (by decide)⟩

/-- Failure of elevation sampling: the query point is beyond the covered
grid. -/
inductive SamplingError
  | outOfBounds
deriving DecidableEq

/-- Named configuration constant (spec section 9): maximum allowed squared
distance to the nearest grid vertex, 50 m squared. -/
def maxDistanceSq : ℚ := 2500

/-- Named configuration constant (spec section 9): elevation variance
threshold, 15 m. -/
def varianceThreshold : ℚ := 15

/-- Named configuration constant (spec section 9): number of nearest grid
vertices considered by the fallback interpolation. -/
def neighborCount : ℕ := 16

/-- Squared euclidean distance between two 2D points. -/
def dist2 (p q : ℚ × ℚ) : ℚ := (p.1 - q.1) ^ 2 + (p.2 - q.2) ^ 2

/-- 2D cross product of (b - a) and (c - a). -/
def cross2 (a b c : ℚ × ℚ) : ℚ :=
  (b.1 - a.1) * (c.2 - a.2) - (b.2 - a.2) * (c.1 - a.1)

/-- Modelled from the spec: barycentric containment test and interpolation on
one triangle (buildings.py, absent from src/). Returns the interpolated
elevation when q lies in the triangle p0 p1 p2 (all barycentric weights
nonnegative), none otherwise or for a degenerate triangle. -/
def baryInterp (p0 p1 p2 : ℚ × ℚ) (e0 e1 e2 : ℚ) (q : ℚ × ℚ) : Option ℚ :=
  if cross2 p0 p1 p2 = 0 then none
  else if 0 ≤ cross2 q p1 p2 / cross2 p0 p1 p2 ∧
          0 ≤ cross2 p0 q p2 / cross2 p0 p1 p2 ∧
          0 ≤ cross2 p0 p1 q / cross2 p0 p1 p2 then
    some (cross2 q p1 p2 / cross2 p0 p1 p2 * e0 +
          cross2 p0 q p2 / cross2 p0 p1 p2 * e1 +
          cross2 p0 p1 q / cross2 p0 p1 p2 * e2)
  else none

/-- Test the two triangles of cell (r,c) — [v0,v1,v2] then [v1,v3,v2] as in
the terrain triangulation — returning the first barycentric hit. -/
def cellInterp (m : GridMeta) (r c : ℕ) (x z : ℚ) : Option ℚ :=
  match baryInterp (vpos m r c) (vpos m r (c + 1)) (vpos m (r + 1) c)
      (m.elev r c) (m.elev r (c + 1)) (m.elev (r + 1) c) (x, z) with
  | some e => some e
  | none => baryInterp (vpos m r (c + 1)) (vpos m (r + 1) (c + 1)) (vpos m (r + 1) c)
      (m.elev r (c + 1)) (m.elev (r + 1) (c + 1)) (m.elev (r + 1) c) (x, z)

/-- Modelled from the spec: strategy 1 of the sampler — invert the affine grid
spacing to find the candidate cell of (x,z) and test its two triangles. The
cell indices come from floors of the affine inverse; out-of-range indices mean
no containing cell. -/
def tryBarycentric (m : GridMeta) (x z : ℚ) : Option ℚ :=
  if 0 ≤ ⌊(x - m.x0) / m.dx⌋ ∧ ⌊(x - m.x0) / m.dx⌋ + 1 ≤ (m.cols : ℤ) - 1 ∧
     0 ≤ ⌊(z - m.z0) / m.dz⌋ ∧ ⌊(z - m.z0) / m.dz⌋ + 1 ≤ (m.rows : ℤ) - 1 then
    cellInterp m (⌊(z - m.z0) / m.dz⌋).toNat (⌊(x - m.x0) / m.dx⌋).toNat x z
  else none

/-- A candidate grid vertex for the fallback interpolation: its indices, its
squared distance to the query point and its elevation. -/
structure Cand where
  r : ℕ
  c : ℕ
  d2 : ℚ
  e : ℚ
deriving DecidableEq

/-- All grid vertices as candidates, row-major. -/
def allCands (m : GridMeta) (x z : ℚ) : List Cand :=
  (List.range m.rows).flatMap fun r =>
    (List.range m.cols).map fun c =>
      { r := r, c := c, d2 := dist2 (x, z) (vpos m r c), e := m.elev r c }

/-- Insert a candidate into a list sorted by ascending squared distance. -/
def insertCand (a : Cand) : List Cand → List Cand
  | [] => [a]
  | b :: l => if a.d2 ≤ b.d2 then a :: b :: l else b :: insertCand a l

/-- Sort candidates by ascending squared distance (insertion sort). -/
def sortCands : List Cand → List Cand
  | [] => []
  | a :: l => insertCand a (sortCands l)

/-- The 16 candidate vertices nearest to the query point. -/
def nearest16 (m : GridMeta) (x z : ℚ) : List Cand :=
  (sortCands (allCands m x z)).take neighborCount

/-- Population variance of a list of elevations (0 for the empty list). -/
def elevVariance (es : List ℚ) : ℚ :=
  (es.map fun e => (e - meanQ es) ^ 2).sum / es.length

/-- Modelled from the spec: inverse-distance-weighted average of the candidate
elevations, weights 1/d²; an exact vertex hit returns that vertex's
elevation. -/
def idw (cands : List Cand) : ℚ :=
  match cands.find? fun cand => cand.d2 = 0 with
  | some cand => cand.e
  | none => ((cands.map fun cand => cand.e / cand.d2).sum) /
      ((cands.map fun cand => 1 / cand.d2).sum)

/-- Modelled from the spec: sampleElevation of the ElevationSampler
(buildings.py, absent from src/). Tiered strategy: barycentric interpolation
in the containing cell; otherwise the 16-nearest-vertex fallback, guarded by
the 50 m out-of-bounds check, with the variance check replacing the weighted
average by the single nearest vertex's elevation across discontinuities. -/
def sampleElevation (m : GridMeta) (x z : ℚ) : Except SamplingError ℚ :=
  match tryBarycentric m x z with
  | some e => Except.ok e
  | none =>
    match (sortCands (allCands m x z)).head? with
    | none => Except.error SamplingError.outOfBounds
    | some nearest =>
      if maxDistanceSq < nearest.d2 then Except.error SamplingError.outOfBounds
      else if varianceThreshold < elevVariance ((nearest16 m x z).map Cand.e) then
        Except.ok nearest.e
      else Except.ok (idw (nearest16 m x z))

/-- First success of an ordered list of strategy outcomes (spec section 9:
"an ordered list of strategies, each returning an optional value, with the
caller short-circuiting on first success"). -/
def firstSuccess {α : Type} : List (Option α) → Option α
  | [] => none
  | some a :: _ => some a
  | none :: rest => firstSuccess rest

/-- Spec-side strategy 1: barycentric interpolation over the two triangles of
the containing cell. -/
def stratBary (m : GridMeta) (x z : ℚ) : Option (Except SamplingError ℚ) :=
  (tryBarycentric m x z).map Except.ok

/-- Spec-side out-of-bounds guard: if there is no grid vertex within 50 m of
the query point, produce SamplingError.outOfBounds rather than extrapolate. -/
def stratOutOfRange (m : GridMeta) (x z : ℚ) : Option (Except SamplingError ℚ) :=
  match (sortCands (allCands m x z)).head? with
  | none => some (Except.error SamplingError.outOfBounds)
  | some nearest =>
    if maxDistanceSq < nearest.d2 then some (Except.error SamplingError.outOfBounds) else none

/-- Spec-side discontinuity strategy: when the elevation variance among the 16
nearest candidate vertices exceeds 15 m, return the single nearest vertex's
elevation instead of a weighted average. -/
def stratDiscontinuity (m : GridMeta) (x z : ℚ) : Option (Except SamplingError ℚ) :=
  match (sortCands (allCands m x z)).head? with
  | none => none
  | some nearest =>
    if varianceThreshold < elevVariance ((nearest16 m x z).map Cand.e) then
      some (Except.ok nearest.e)
    else none

/-- Spec-side strategy: inverse-distance-weighted interpolation over the 16
nearest grid vertices. -/
def stratIdw (m : GridMeta) (x z : ℚ) : Option (Except SamplingError ℚ) :=
  match (sortCands (allCands m x z)).head? with
  | none => none
  | some _ => some (Except.ok (idw (nearest16 m x z)))

/-- The sampler as the spec words it: the fixed-order strategy chain, first
success wins. -/
def sampleElevationSpec (m : GridMeta) (x z : ℚ) : Except SamplingError ℚ :=
  (firstSuccess
    [stratBary m x z, stratOutOfRange m x z, stratDiscontinuity m x z, stratIdw m x z]).getD
    (Except.error SamplingError.outOfBounds)

/-- C5: sampleElevation is exactly the fixed-order first-success chain:
barycentric interpolation over the containing cell's two triangles first, the
16-nearest-vertex fallback otherwise, with the weighted average replaced by
the single nearest vertex's elevation when the candidate elevation variance
exceeds 15 m. -/
theorem sampleElevation_strategy_order (m : GridMeta) (x z : ℚ) :
    sampleElevation m x z = sampleElevationSpec m x z := by
  unfold sampleElevation sampleElevationSpec stratBary stratOutOfRange stratDiscontinuity stratIdw
  rcases hb : tryBarycentric m x z with _ | e
  · rcases hh : (sortCands (allCands m x z)).head? with _ | n
    · simp [firstSuccess]
    · by_cases h1 : maxDistanceSq < n.d2
      · simp [firstSuccess, h1]
      · by_cases h2 : varianceThreshold < elevVariance ((nearest16 m x z).map Cand.e)
        · simp [firstSuccess, h1, h2]
        · simp [firstSuccess, h1, h2]
  · simp [firstSuccess]

/-- OSM building-type tags with configured default heights. -/
inductive BuildingType
  | residential
  | house
  | office
  | other
deriving DecidableEq

/-- Modelled from the spec: the building-type default height table of
buildings.py (residential 8 m, house 6 m, office 25 m; 8 m otherwise). -/
def typeDefaultHeight : Option BuildingType → ℚ
  | some BuildingType.residential => 8
  | some BuildingType.house => 6
  | some BuildingType.office => 25
  | _ => 8

/-- A building footprint: geodetic outer ring and hole rings as (lat, lon)
pairs, plus optional OSM height metadata. -/
structure Footprint where
  outer : List (ℚ × ℚ)
  holes : List (List (ℚ × ℚ))
  heightTag : Option ℚ
  levelsTag : Option ℚ
  buildingType : Option BuildingType

/-- Modelled from the spec: height estimation of buildings.py, in priority
order — explicit height tag, then levels × 3.5 m, then the building-type
default table. -/
def estimateHeight (f : Footprint) : ℚ :=
  match f.heightTag with
  | some h => h
  | none =>
    match f.levelsTag with
    | some lv => lv * (7 / 2)
    | none => typeDefaultHeight f.buildingType

/-- Transform a geodetic ring to local (x, z) through the shared
CoordinateTransformer. -/
def ringLocal (t : Transformer) (ring : List (ℚ × ℚ)) : List (ℚ × ℚ) :=
  ring.map fun p => toLocal t p.1 p.2

/-- Twice the signed area of a closed ring (shoelace formula over cyclically
consecutive vertex pairs). -/
def shoelace (ring : List (ℚ × ℚ)) : ℚ :=
  ((ring.zip (ring.rotate 1)).map fun pq => pq.1.1 * pq.2.2 - pq.2.1 * pq.1.2).sum

/-- Area-weighted 2D centroid of a ring (shoelace centroid). -/
def ringCentroid (ring : List (ℚ × ℚ)) : ℚ × ℚ :=
  (((ring.zip (ring.rotate 1)).map fun pq =>
      (pq.1.1 + pq.2.1) * (pq.1.1 * pq.2.2 - pq.2.1 * pq.1.2)).sum / (3 * shoelace ring),
   ((ring.zip (ring.rotate 1)).map fun pq =>
      (pq.1.2 + pq.2.2) * (pq.1.1 * pq.2.2 - pq.2.1 * pq.1.2)).sum / (3 * shoelace ring))

/-- Modelled from the spec: the base-elevation lookup of buildings.py. The
repository codifies an extra sign flip before sampling — target_z =
-centroid_z (src/backend/docs/logic/z_inversion.md, "we had to flip the sign
of the z-coordinate ... we have codified this fix in buildings.py"). -/
def lookupBaseElevation (m : GridMeta) (cx cz : ℚ) : Except SamplingError ℚ :=
  sampleElevation m cx (-cz)

/-- The point actually handed to sampleElevation for a footprint: the local
centroid with the codified z flip applied. -/
def buildingQueryPoint (t : Transformer) (f : Footprint) : ℚ × ℚ :=
  ((ringCentroid (ringLocal t f.outer)).1, -(ringCentroid (ringLocal t f.outer)).2)

/-- Why a footprint failed to extrude. -/
inductive ExtrusionFailure
  | invalidGeometry
  | sampling (e : SamplingError)
  | extrusionError
deriving DecidableEq

/-- An extruded building prism. -/
structure BuildingMesh where
  vertices : List Vec3
  faces : List (ℕ × ℕ × ℕ)
deriving DecidableEq

/-- Modelled from the spec: extrude a local 2D ring into a closed prism of
the given height sitting at the given base elevation — bottom ring, top ring,
wall quads split into triangles, roof as a fan. -/
def prism (ring : List (ℚ × ℚ)) (base h : ℚ) : BuildingMesh :=
  { vertices :=
      (ring.map fun p => { x := p.1, y := base, z := p.2 : Vec3 }) ++
      (ring.map fun p => { x := p.1, y := base + h, z := p.2 : Vec3 }),
    faces :=
      ((List.range ring.length).flatMap fun i =>
        [(i, (i + 1) % ring.length, ring.length + i),
         ((i + 1) % ring.length, ring.length + (i + 1) % ring.length, ring.length + i)]) ++
      ((List.range (ring.length - 2)).map fun i =>
        (ring.length, ring.length + i + 1, ring.length + i + 2)) }

/-- Modelled from the spec: extrude of the BuildingExtruder (buildings.py,
absent from src/) — transform the outer ring, reject degenerate geometry,
estimate the height, sample the base elevation at the footprint centroid
(with the codified z flip), and build the prism; any failure is reported, not
raised. -/
def extrude (t : Transformer) (m : GridMeta) (f : Footprint) :
    Except ExtrusionFailure BuildingMesh :=
  if (ringLocal t f.outer).length < 3 ∨ shoelace (ringLocal t f.outer) = 0 then
    Except.error ExtrusionFailure.invalidGeometry
  else
    match lookupBaseElevation m (ringCentroid (ringLocal t f.outer)).1
        (ringCentroid (ringLocal t f.outer)).2 with
    | Except.error e => Except.error (ExtrusionFailure.sampling e)
    | Except.ok base => Except.ok (prism (ringLocal t f.outer) base (estimateHeight f))

/-- Modelled from the spec: extrude_buildings of buildings.py — extrude each
footprint independently, recording a None at the index of every failure,
never shortening the list. -/
def extrudeBuildings (t : Transformer) (m : GridMeta) : List Footprint → List (Option BuildingMesh)
  | [] => []
  | f :: rest => (extrude t m f).toOption :: extrudeBuildings t m rest

lemma extrudeBuildings_eq_map (t : Transformer) (m : GridMeta) (fps : List Footprint) :
    extrudeBuildings t m fps = fps.map fun f => (extrude t m f).toOption := by
  induction fps with
  | nil => rfl
  | cons f rest ih => simp [extrudeBuildings, ih]

/-- C2: the output of extrude_buildings is index-aligned 1:1 with the input
footprint list — same length, and position i holds exactly the (optional)
result of extruding footprint i, so a failure yields None at its own index
and never aborts the batch or shifts later indices. -/
theorem extrudeBuildings_index_aligned (t : Transformer) (m : GridMeta)
    (fps : List Footprint) :
    (extrudeBuildings t m fps).length = fps.length ∧
    ∀ i : ℕ, (extrudeBuildings t m fps)[i]? = (fps[i]?).map fun f => (extrude t m f).toOption := by
  rw [extrudeBuildings_eq_map]
  exact ⟨List.length_map _ _, fun i => List.getElem?_map _ _ _⟩

/-- C7: the full strict priority order of height estimation — an explicit
height tag wins over everything; with no explicit tag, levels × 3.5 m wins
over the building-type default table; the table is used only when both tags
are absent. -/
theorem estimateHeight_priority_order (f : Footprint) :
    (∀ h : ℚ, f.heightTag = some h → estimateHeight f = h) ∧
    (∀ lv : ℚ, f.heightTag = none → f.levelsTag = some lv →
      estimateHeight f = lv * (7 / 2)) ∧
    (f.heightTag = none → f.levelsTag = none →
      estimateHeight f = typeDefaultHeight f.buildingType) := by
  refine ⟨fun h hh => ?_, fun lv hh hl => ?_, fun hh hl => ?_⟩
  · unfold estimateHeight
    rw [hh]
  · unfold estimateHeight
    rw [hh, hl]
  · unfold estimateHeight
    rw [hh, hl]

/-- Demo footprint with explicit height 12 and 40 levels. -/
def demoFootprint : Footprint :=
  { outer := [(0, 0), (0, 1/10000), (1/10000, 0)], holes := [],
    heightTag := some 12, levelsTag := some 40, buildingType := some BuildingType.office }

/-- Demo footprint with no explicit height, 4 levels, office type. -/
def levelsFootprint : Footprint :=
  { outer := [(0, 0), (0, 1/10000), (1/10000, 0)], holes := [],
    heightTag := none, levelsTag := some 4, buildingType := some BuildingType.office }

/-- Demo footprint with no explicit height and no level count, house type. -/
def typeFootprint : Footprint :=
  { outer := [(0, 0), (0, 1/10000), (1/10000, 0)], holes := [],
    heightTag := none, levelsTag := none, buildingType := some BuildingType.house }

/-- C7 witness: height=12 with levels=40 estimates exactly 12 m; no height
tag with 4 levels estimates 14 m, beating the 25 m office default; no tags at
all falls back to the 6 m house default. -/
theorem estimateHeight_priority_order_witness :
    estimateHeight demoFootprint = 12 ∧
    estimateHeight levelsFootprint = 14 ∧
    estimateHeight typeFootprint = 6 := by
  refine ⟨(estimateHeight_priority_order demoFootprint).1 12 rfl, ?_, ?_⟩
  · rw [(estimateHeight_priority_order levelsFootprint).2.1 4 rfl rfl]
    norm_num
  · rw [(estimateHeight_priority_order typeFootprint).2.2 rfl rfl]
    rfl

/-- Demo sampler metadata: 5×5 grid, 10 m spacing, origin (-20, -20),
elevation equal to the row index (so elevation grows toward +z). -/
def rowElevMeta : GridMeta :=
  { rows := 5, cols := 5, x0 := -20, z0 := -20, dx := 10, dz := 10,
    elev := fun r _ => (r : ℚ) }

/-- C1: the repository applies the axis negation a second time inside the
building elevation lookup (target_z = -centroid_z in buildings.py): a
building centroid lying exactly on grid vertex (3,2) = (0, 10), whose
elevation is 3, samples the mirrored point (0, -10) and obtains 1, while
sampling without the extra flip would return the vertex's own elevation 3. -/
theorem buildings_extra_z_flip :
    vpos rowElevMeta 3 2 = (0, 10) ∧ rowElevMeta.elev 3 2 = 3 ∧
    lookupBaseElevation rowElevMeta 0 10 = Except.ok 1 ∧
    sampleElevation rowElevMeta 0 10 = Except.ok 3 := by
  have ht1 : Int.toNat 1 = 1 := rfl
  have ht2 : Int.toNat 2 = 2 := rfl
  have ht3 : Int.toNat 3 = 3 := rfl
  have hb1 : tryBarycentric rowElevMeta 0 (-10) = some 1 := by
    norm_num [tryBarycentric, rowElevMeta, cellInterp, baryInterp, cross2, vpos,
      ht1, ht2, ht3]
  have hb2 : tryBarycentric rowElevMeta 0 10 = some 3 := by
    norm_num [tryBarycentric, rowElevMeta, cellInterp, baryInterp, cross2, vpos,
      ht1, ht2, ht3]
  refine ⟨by norm_num [vpos, rowElevMeta], by norm_num [rowElevMeta], ?_, ?_⟩
  · show sampleElevation rowElevMeta 0 (-(10 : ℚ)) = Except.ok 1
    rw [show (-(10 : ℚ)) = -10 from rfl]
    simp [sampleElevation, hb1]
  · simp [sampleElevation, hb2]

lemma insertCand_perm (a : Cand) (l : List Cand) :
    List.Perm (insertCand a l) (a :: l) := by
  induction l with
  | nil => exact List.Perm.refl _
  | cons b t ih =>
    unfold insertCand
    by_cases h : a.d2 ≤ b.d2
    · rw [if_pos h]
    · rw [if_neg h]
      exact (ih.cons b).trans (List.Perm.swap a b t)

lemma sortCands_perm (l : List Cand) : List.Perm (sortCands l) l := by
  induction l with
  | nil => exact List.Perm.refl _
  | cons a t ih => exact (insertCand_perm a (sortCands t)).trans (ih.cons a)

lemma mem_allCands {m : GridMeta} {x z : ℚ} {cand : Cand}
    (h : cand ∈ allCands m x z) :
    ∃ r, r < m.rows ∧ ∃ c, c < m.cols ∧ cand.d2 = dist2 (x, z) (vpos m r c) := by
  unfold allCands at h
  rw [List.mem_flatMap] at h
  obtain ⟨r, hr, hmem⟩ := h
  rw [List.mem_map] at hmem
  obtain ⟨c, hc, rfl⟩ := hmem
  exact ⟨r, List.mem_range.mp hr, c, List.mem_range.mp hc, rfl⟩

lemma floor_cell_offset_sq_lt {a d : ℚ} (hd : d ≠ 0) :
    (a - (⌊a / d⌋ : ℚ) * d) ^ 2 < d ^ 2 := by
  have h1 : (⌊a / d⌋ : ℚ) ≤ a / d := Int.floor_le _
  have h2 : a / d < (⌊a / d⌋ : ℚ) + 1 := Int.lt_floor_add_one _
  rcases hd.lt_or_lt with hneg | hpos
  · have h1' : a ≤ (⌊a / d⌋ : ℚ) * d := by
      have h := mul_le_mul_of_nonpos_right h1 (le_of_lt hneg)
      rwa [div_mul_cancel₀ a hd] at h
    have h2' : ((⌊a / d⌋ : ℚ) + 1) * d < a := by
      have h := mul_lt_mul_of_neg_right h2 hneg
      rwa [div_mul_cancel₀ a hd] at h
    nlinarith
  · have h1' : (⌊a / d⌋ : ℚ) * d ≤ a := by
      have h := mul_le_mul_of_nonneg_right h1 (le_of_lt hpos)
      rwa [div_mul_cancel₀ a hd] at h
    have h2' : a < ((⌊a / d⌋ : ℚ) + 1) * d := by
      have h := mul_lt_mul_of_pos_right h2 hpos
      rwa [div_mul_cancel₀ a hd] at h
    nlinarith

lemma sampleElevation_far (m : GridMeta) (x z : ℚ)
    (hdx : m.dx ≠ 0) (hdz : m.dz ≠ 0) (hdiag : m.dx ^ 2 + m.dz ^ 2 ≤ maxDistanceSq)
    (hfar : ∀ r, r < m.rows → ∀ c, c < m.cols →
      maxDistanceSq < dist2 (x, z) (vpos m r c)) :
    sampleElevation m x z = Except.error SamplingError.outOfBounds := by
  have hbary : tryBarycentric m x z = none := by
    unfold tryBarycentric
    split_ifs with hcond
    · exfalso
      obtain ⟨h1, h2, h3, h4⟩ := hcond
      have hcn : (⌊(x - m.x0) / m.dx⌋).toNat < m.cols := by
        rw [Int.toNat_lt h1]
        omega
      have hrn : (⌊(z - m.z0) / m.dz⌋).toNat < m.rows := by
        rw [Int.toNat_lt h3]
        omega
      have hfar' := hfar _ hrn _ hcn
      have hcastc : (((⌊(x - m.x0) / m.dx⌋).toNat : ℕ) : ℚ) = ((⌊(x - m.x0) / m.dx⌋ : ℤ) : ℚ) := by
        rw [← Int.cast_natCast, Int.toNat_of_nonneg h1]
      have hcastr : (((⌊(z - m.z0) / m.dz⌋).toNat : ℕ) : ℚ) = ((⌊(z - m.z0) / m.dz⌋ : ℤ) : ℚ) := by
        rw [← Int.cast_natCast, Int.toNat_of_nonneg h3]
      have hd : dist2 (x, z) (vpos m (⌊(z - m.z0) / m.dz⌋).toNat (⌊(x - m.x0) / m.dx⌋).toNat)
          < maxDistanceSq := by
        unfold dist2 vpos
        dsimp only
        rw [hcastc, hcastr]
        have e1 : ((x - m.x0) - (⌊(x - m.x0) / m.dx⌋ : ℚ) * m.dx) ^ 2 < m.dx ^ 2 :=
          floor_cell_offset_sq_lt hdx
        have e2 : ((z - m.z0) - (⌊(z - m.z0) / m.dz⌋ : ℚ) * m.dz) ^ 2 < m.dz ^ 2 :=
          floor_cell_offset_sq_lt hdz
        have hr1 : (x - (m.x0 + (⌊(x - m.x0) / m.dx⌋ : ℚ) * m.dx)) ^ 2
            = ((x - m.x0) - (⌊(x - m.x0) / m.dx⌋ : ℚ) * m.dx) ^ 2 := by ring
        have hr2 : (z - (m.z0 + (⌊(z - m.z0) / m.dz⌋ : ℚ) * m.dz)) ^ 2
            = ((z - m.z0) - (⌊(z - m.z0) / m.dz⌋ : ℚ) * m.dz) ^ 2 := by ring
        rw [hr1, hr2]
        linarith
      linarith
    · rfl
  unfold sampleElevation
  rw [hbary]
  rcases hl : sortCands (allCands m x z) with _ | ⟨n, rest⟩
  · simp
  · have hn : n ∈ allCands m x z :=
      (sortCands_perm (allCands m x z)).mem_iff.mp (hl ▸ List.mem_cons_self n rest)
    obtain ⟨r, hr, c, hc, hd2⟩ := mem_allCands hn
    have hgt : maxDistanceSq < n.d2 := hd2 ▸ hfar r hr c hc
    simp [hgt]

/-- C6 (amended): on any grid with nonzero spacing whose cell diagonal is at
most 50 m — the condition the counterexample below forces, satisfied by both
signs of the negated-axis spacing — when every terrain grid vertex is farther
than 50 m from the point actually queried for a footprint (its centroid, with
the codified z flip), the sampler answers SamplingError.outOfBounds instead
of extrapolating, and that footprint produces None at its own index of the
batch output — never a mesh at elevation 0. -/
theorem sampleElevation_far_out_of_bounds (t : Transformer) (m : GridMeta)
    (fps : List Footprint) (i : ℕ) (f : Footprint) (hf : fps[i]? = some f)
    (hdx : m.dx ≠ 0) (hdz : m.dz ≠ 0) (hdiag : m.dx ^ 2 + m.dz ^ 2 ≤ maxDistanceSq)
    (hfar : ∀ r, r < m.rows → ∀ c, c < m.cols →
      maxDistanceSq < dist2 (buildingQueryPoint t f) (vpos m r c)) :
    sampleElevation m (buildingQueryPoint t f).1 (buildingQueryPoint t f).2
      = Except.error SamplingError.outOfBounds ∧
    (extrudeBuildings t m fps)[i]? = some none := by
  have hs : sampleElevation m (buildingQueryPoint t f).1 (buildingQueryPoint t f).2
      = Except.error SamplingError.outOfBounds :=
    sampleElevation_far m _ _ hdx hdz hdiag hfar
  refine ⟨hs, ?_⟩
  rw [(extrudeBuildings_index_aligned t m fps).2 i, hf, Option.map_some']
  refine congrArg some ?_
  unfold extrude
  split_ifs with hgeo
  · rfl
  · have hlook : lookupBaseElevation m (ringCentroid (ringLocal t f.outer)).1
        (ringCentroid (ringLocal t f.outer)).2
        = Except.error SamplingError.outOfBounds := hs
    rw [hlook]
    rfl

/-- Demo 2×2 sampler grid at the origin with negative spacing −3 m × −4 m
(cell diagonal 5 m), the sign the pipeline's own terrainMeta produces under
the negated-axis convention. -/
def smallMeta : GridMeta :=
  { rows := 2, cols := 2, x0 := 0, z0 := 0, dx := -3, dz := -4, elev := fun _ _ => 0 }

/-- Demo footprint whose local outer ring is the triangle (111,111), (444,111),
(111,444): its centroid (222, 222) — and the flipped query (222, -222) — lies
far outside the demo grid. -/
def farFootprint : Footprint :=
  { outer := [(-1/1000, -1/1000), (-1/1000, -4/1000), (-4/1000, -1/1000)],
    holes := [], heightTag := none, levelsTag := none, buildingType := none }

/-- C6 witness: the far footprint samples out of bounds and yields None at
index 0 of the batch. -/
theorem sampleElevation_far_out_of_bounds_witness :
    sampleElevation smallMeta (buildingQueryPoint demoTransformer farFootprint).1
      (buildingQueryPoint demoTransformer farFootprint).2
      = Except.error SamplingError.outOfBounds ∧
    (extrudeBuildings demoTransformer smallMeta [farFootprint])[0]? = some none := by
  have hq : buildingQueryPoint demoTransformer farFootprint = (222, -222) := by
    norm_num [buildingQueryPoint, ringCentroid, ringLocal, shoelace, toLocal,
      demoTransformer, farFootprint, List.rotate]
  refine sampleElevation_far_out_of_bounds demoTransformer smallMeta [farFootprint] 0
    farFootprint rfl (by norm_num [smallMeta]) (by norm_num [smallMeta])
    (by norm_num [smallMeta, maxDistanceSq]) ?_
  intro r hr c hc
  rw [hq]
  have hr2 : r < 2 := hr
  have hc2 : c < 2 := hc
  interval_cases r <;> interval_cases c <;>
    norm_num [dist2, vpos, smallMeta, maxDistanceSq]

/-- Coarse 2×2 sampler grid with 200 m spacing: its cell diagonal far exceeds
50 m. -/
def coarseMeta : GridMeta :=
  { rows := 2, cols := 2, x0 := 0, z0 := 0, dx := 200, dz := 200, elev := fun _ _ => 0 }

/-- C6 counterexample: on the coarse grid the query point (100, 100) is
farther than 50 m from every one of the four grid vertices (each squared
distance is 20000 > 2500), yet sampleElevation does not return
SamplingError.outOfBounds — the containing cell's triangle test succeeds
first and interpolates an elevation, here 0. The unconditional claim
therefore fails; it holds once the grid-cell diagonal is bounded by 50 m. -/
theorem sampleElevation_far_counterexample :
    maxDistanceSq < dist2 (100, 100) (vpos coarseMeta 0 0) ∧
    maxDistanceSq < dist2 (100, 100) (vpos coarseMeta 0 1) ∧
    maxDistanceSq < dist2 (100, 100) (vpos coarseMeta 1 0) ∧
    maxDistanceSq < dist2 (100, 100) (vpos coarseMeta 1 1) ∧
    sampleElevation coarseMeta 100 100 = Except.ok 0 := by
  have ht0 : Int.toNat 0 = 0 := rfl
  have hb : tryBarycentric coarseMeta 100 100 = some 0 := by
    norm_num [tryBarycentric, coarseMeta, cellInterp, baryInterp, cross2, vpos, ht0]
  exact ⟨by norm_num [dist2, vpos, coarseMeta, maxDistanceSq],
    by norm_num [dist2, vpos, coarseMeta, maxDistanceSq],
    by norm_num [dist2, vpos, coarseMeta, maxDistanceSq],
    by norm_num [dist2, vpos, coarseMeta, maxDistanceSq],
    by simp [sampleElevation, hb]⟩

/-- Quality configuration consumed by the pipeline: the smoothing kernel
selected by the quality tier. -/
structure QualityConfig where
  kernelWeight : ℤ → ℚ
  kernelRadius : ℕ

/-- Merged output scene: concatenated vertex and face buffers. -/
structure Scene where
  vertices : List Vec3
  faces : List (ℕ × ℕ × ℕ)
deriving DecidableEq

/-- Shift face indices by the cumulative vertex offset of a sub-mesh. -/
def offsetFaces (off : ℕ) (fs : List (ℕ × ℕ × ℕ)) : List (ℕ × ℕ × ℕ) :=
  fs.map fun fc => (fc.1 + off, fc.2.1 + off, fc.2.2 + off)

/-- Modelled from the spec: the MeshMerger — concatenate the terrain buffers
with every non-null building mesh, remapping face indices by the cumulative
vertex offset. -/
def mergeScene (terrain : TerrainMesh) (bs : List (Option BuildingMesh)) : Scene :=
  bs.foldl
    (fun acc ob =>
      match ob with
      | none => acc
      | some bm =>
        { vertices := acc.vertices ++ bm.vertices,
          faces := acc.faces ++ offsetFaces acc.vertices.length bm.faces })
    { vertices := terrain.vertices, faces := terrain.faces }

/-- Modelled from the spec: the full generation pipeline of generator.py
(absent from src/) — build the terrain from the smoothed grid, extrude every
footprint against the terrain metadata, merge. -/
def generateScene (t : Transformer) (b : BoundingBox) (cfg : QualityConfig)
    (g : ElevationGrid) (fps : List Footprint) : Scene :=
  mergeScene (buildTerrain t b cfg.kernelWeight cfg.kernelRadius g)
    (extrudeBuildings t (buildTerrain t b cfg.kernelWeight cfg.kernelRadius g).meta fps)

/-- C9: the pipeline is deterministic — two runs on equal inputs (elevation
grid, footprints, quality configuration, bbox, transformer) produce identical
vertex and face buffers in the output scene. The embedded pipeline is a pure
function of its inputs: no randomness, clock, or shared mutable state. -/
theorem pipeline_deterministic (t1 t2 : Transformer) (b1 b2 : BoundingBox)
    (cfg1 cfg2 : QualityConfig) (g1 g2 : ElevationGrid) (fps1 fps2 : List Footprint)
    (ht : t1 = t2) (hb : b1 = b2) (hcfg : cfg1 = cfg2) (hg : g1 = g2) (hfps : fps1 = fps2) :
    (generateScene t1 b1 cfg1 g1 fps1).vertices = (generateScene t2 b2 cfg2 g2 fps2).vertices ∧
    (generateScene t1 b1 cfg1 g1 fps1).faces = (generateScene t2 b2 cfg2 g2 fps2).faces := by
  subst ht hb hcfg hg hfps
  exact ⟨rfl, rfl⟩

/-- Demo quality configuration (radius 0: smoothing disabled). -/
def demoConfig : QualityConfig := { kernelWeight := demoKernel, kernelRadius := 0 }

/-- C9 witness: two runs on the demo inputs agree. -/
theorem pipeline_deterministic_witness :
    (generateScene demoTransformer demoBbox demoConfig demoGrid [demoFootprint]).vertices
      = (generateScene demoTransformer demoBbox demoConfig demoGrid [demoFootprint]).vertices ∧
    (generateScene demoTransformer demoBbox demoConfig demoGrid [demoFootprint]).faces
      = (generateScene demoTransformer demoBbox demoConfig demoGrid [demoFootprint]).faces :=
  pipeline_deterministic demoTransformer demoTransformer demoBbox demoBbox demoConfig demoConfig
    demoGrid demoGrid [demoFootprint] [demoFootprint] rfl rfl rfl rfl rfl
